import Mathlib

/-!
Shallow embedding of the Smart-IoT local-device discovery, protocol and
cache layer (src/services/localDeviceService.ts, deviceProtocols.ts,
deviceCache.ts).  Times are modelled as `Int` milliseconds, JavaScript
exceptions as `Except String`, and the network as explicit environment
records holding the outcome of each HTTP request.
-/

set_option maxRecDepth 8192

namespace SmartIoT

/-- JS `s.toLowerCase()` (character-level, so that proofs can evaluate it). -/
def strToLower (s : String) : String :=
  ⟨s.data.map Char.toLower⟩

/-- JS `s.split('.')`. -/
def splitDots (s : String) : List String :=
  (go [] s.data).map (fun l => ⟨l⟩)
where
  go (acc : List Char) : List Char → List (List Char)
    | [] => [acc.reverse]
    | c :: cs => if c == '.' then acc.reverse :: go [] cs else go (c :: acc) cs

/-- JS `parseInt(s, 10)` (on the non-negative inputs used here): the value
of the leading run of digits, `none` when there is no digit. -/
def parseIntBase10 (s : String) : Option Nat :=
  let ds := s.data.takeWhile (fun c => c.isDigit)
  if ds.isEmpty then none
  else some (ds.foldl (fun n c => n * 10 + (c.toNat - 48)) 0)

/-- JS `s.includes(sub)`: substring containment on the character list. -/
def jsIncludes (s sub : String) : Bool :=
  go sub.data s.data
where
  go (needle : List Char) : List Char → Bool
    | [] => needle.isEmpty
    | c :: rest => needle.isPrefixOf (c :: rest) || go needle rest

/-- JS `x || y` on an optional string: the empty string is falsy. -/
def jsOrS (o : Option String) (d : String) : String :=
  match o with
  | some s => if s == "" then d else s
  | none => d

/-- JS `x || y` on optional numbers: `0` is falsy. -/
def jsOrN (a b : Option Nat) : Option Nat :=
  match a with
  | some n => if n == 0 then b else some n
  | none => b

/-- JS truthiness of an optional string (absent or empty is falsy). -/
def jsTruthyS (o : Option String) : Bool :=
  match o with
  | some s => s != ""
  | none => false

/-- `s.charAt(0).toUpperCase() + s.slice(1)`. -/
def capFirst (s : String) : String :=
  match s.data with
  | [] => ""
  | c :: cs => ⟨c.toUpper :: cs⟩

/-- `ipAddress.replace(/\./g, '-')`: every dot becomes a dash. -/
def ipToId (ip : String) : String :=
  ⟨ip.data.map (fun c => if c == '.' then '-' else c)⟩

/-- The `LocalDevice` interface of localDeviceService.ts (lines 35-56);
numeric properties are modelled as `Nat`. -/
structure LocalDevice where
  id : String
  name : String
  type : String
  ip : String
  mac : Option String := none
  state : Bool
  protocol : Option String := none
  value : Option Nat := none
  brightness : Option Nat := none
  temperature : Option Nat := none
  deriving Repr, DecidableEq

/-- `Partial<LocalDevice>`: a patch carries an optional new value for each
field (`none` means the key is absent from the patch object). -/
structure DevicePatch where
  id : Option String := none
  name : Option String := none
  type : Option String := none
  ip : Option String := none
  mac : Option (Option String) := none
  state : Option Bool := none
  protocol : Option (Option String) := none
  value : Option (Option Nat) := none
  brightness : Option (Option Nat) := none
  temperature : Option (Option Nat) := none
  deriving Repr, DecidableEq

/-- JS object spread `{...device, ...updates}`: keys present in the patch
override, all other fields are kept. -/
def applyPatch (d : LocalDevice) (p : DevicePatch) : LocalDevice :=
  { id := p.id.getD d.id
    name := p.name.getD d.name
    type := p.type.getD d.type
    ip := p.ip.getD d.ip
    mac := p.mac.getD d.mac
    state := p.state.getD d.state
    protocol := p.protocol.getD d.protocol
    value := p.value.getD d.value
    brightness := p.brightness.getD d.brightness
    temperature := p.temperature.getD d.temperature }

/-! ## Device cache (deviceCache.ts) -/

/-- `CACHE_EXPIRY = 60 * 60 * 1000` (1 hour), deviceCache.ts line 7. -/
def CACHE_EXPIRY : Int := 60 * 60 * 1000

/-- `CachedDevice extends LocalDevice { cachedAt: number }`. -/
structure CachedDevice where
  device : LocalDevice
  cachedAt : Int
  deriving Repr, DecidableEq

/-- The mutable state of `DeviceCacheService`: the `Map<string, CachedDevice>`
(as an insertion-ordered association list) and `lastScanTimestamp`. -/
structure CacheState where
  entries : List (String × CachedDevice) := []
  lastScanTimestamp : Int := 0
  deriving Repr, DecidableEq

namespace DeviceCache

/-- JS `Map.get`. -/
def mapGet (m : List (String × CachedDevice)) (k : String) : Option CachedDevice :=
  (m.find? (fun p => p.1 == k)).map (fun p => p.2)

/-- JS `Map.set`: replaces the value in place when the key is present,
otherwise appends a new entry (insertion order is preserved). -/
def mapSet (m : List (String × CachedDevice)) (k : String) (v : CachedDevice) :
    List (String × CachedDevice) :=
  if m.any (fun p => p.1 == k) then
    m.map (fun p => if p.1 == k then (k, v) else p)
  else
    m ++ [(k, v)]

/-- `isExpired(timestamp)`: `Date.now() - timestamp > CACHE_EXPIRY`. -/
def isExpired (now timestamp : Int) : Bool :=
  now - timestamp > CACHE_EXPIRY

/-- `cacheDevice(device)`: stores the device under its id with
`cachedAt = Date.now()`. -/
def cacheDevice (s : CacheState) (d : LocalDevice) (now : Int) : CacheState :=
  { s with entries := mapSet s.entries d.id ⟨d, now⟩ }

/-- `cacheDevices(devices)`: caches each device and sets
`lastScanTimestamp = Date.now()`. -/
def cacheDevices (s : CacheState) (ds : List LocalDevice) (now : Int) : CacheState :=
  { ds.foldl (fun acc d => cacheDevice acc d now) s with lastScanTimestamp := now }

/-- `getAllDevices()`: every non-expired entry, stripped of its cache
metadata, in map iteration (= insertion) order. -/
def getAllDevices (s : CacheState) (now : Int) : List LocalDevice :=
  (s.entries.filter (fun p => !(isExpired now p.2.cachedAt))).map (fun p => p.2.device)

/-- The lazy clean-up performed by `getAllDevices` (`deviceCache.delete(id)`
on each expired entry). -/
def evictExpired (s : CacheState) (now : Int) : CacheState :=
  { s with entries := s.entries.filter (fun p => !(isExpired now p.2.cachedAt)) }

/-- `hasRecentScan(maxAgeMs)`: `Date.now() - lastScanTimestamp < maxAgeMs`. -/
def hasRecentScan (s : CacheState) (now maxAgeMs : Int) : Bool :=
  now - s.lastScanTimestamp < maxAgeMs

/-- `updateDeviceState(deviceId, updates)`: merges the patch into an existing
entry, restamping `cachedAt`; returns `false` (leaving the cache untouched)
when the id is absent. -/
def updateDeviceState (s : CacheState) (deviceId : String) (updates : DevicePatch)
    (now : Int) : Bool × CacheState :=
  match mapGet s.entries deviceId with
  | none => (false, s)
  | some e =>
      (true, { s with entries := mapSet s.entries deviceId ⟨applyPatch e.device updates, now⟩ })

/-- `clearCache()`. -/
def clearCache (_s : CacheState) : CacheState :=
  { entries := [], lastScanTimestamp := 0 }

end DeviceCache

/-! ## Protocol handlers (deviceProtocols.ts) -/

/-- The closed set of handler classes `getProtocolHandler` can construct. -/
inductive ProtocolKind
  | wiz | hue | syska | tuya | tasmota | shelly | havells | wipro | orient | crompton | bajaj
  deriving Repr, DecidableEq

/-- `getProtocolHandler(protocolType)`: the switch over
`protocolType.toLowerCase()`; the default case constructs a
`TasmotaProtocol`. -/
def getProtocolHandler (protocolType : String) : ProtocolKind :=
  let p := strToLower protocolType
  if p == "philips-wiz" then .wiz
  else if p == "philips-hue" then .hue
  else if p == "syska" then .syska
  else if p == "tuya" then .tuya
  else if p == "tasmota" then .tasmota
  else if p == "shelly" then .shelly
  else if p == "havells" then .havells
  else if p == "wipro" then .wipro
  else if p == "orient" then .orient
  else if p == "crompton" then .crompton
  else if p == "bajaj" then .bajaj
  else .tasmota

/-- The JSON body a state-reading endpoint may return (fields used by the
`getState` implementations). -/
structure StateResp where
  state : Option String := none
  power : Option String := none
  status : Option String := none
  rtype : Option String := none
  brightness : Option Nat := none
  speed : Option Nat := none
  temperature : Option Nat := none
  deriving Repr, DecidableEq

/-- The `{ state: boolean, value?: number }` result of `getState`. -/
structure DeviceState where
  state : Bool
  value : Option Nat := none
  deriving Repr, DecidableEq

/-- `PhilipsWizProtocol.getState`: the try block performs no read — it is a
`console.log` plus an unconditional `return {state:false, value:100}` —
so nothing in it can throw, the catch branch is dead code, and the method
always resolves to that constant. -/
def wizGetState : Except String DeviceState :=
  .ok ⟨false, some 100⟩

/-- `PhilipsHueProtocol.getState`: with no bridge username configured the
try block throws, which the method's own catch converts to `{state:false}`;
with a username it performs no read and returns `{state:false, value:254}`.
Either way it never raises. -/
def hueGetState (username : String) : Except String DeviceState :=
  if username == "" then .ok ⟨false, none⟩ else .ok ⟨false, some 254⟩

/-- `SyskaProtocol.getState`: the try block performs no read (`console.log`
plus `return {state:false}`) and cannot throw, so the `throw error` in its
catch is dead code and the method always resolves to `{state:false}`. -/
def syskaGetState : Except String DeviceState :=
  .ok ⟨false, none⟩

/-- `TuyaProtocol.getState`: like Syska — a constant `{state:false}` with an
unreachable re-throwing catch. -/
def tuyaGetState : Except String DeviceState :=
  .ok ⟨false, none⟩

/-- `ShellyProtocol.getState`: like Syska — a constant `{state:false}` with
an unreachable re-throwing catch. -/
def shellyGetState : Except String DeviceState :=
  .ok ⟨false, none⟩

/-- `TasmotaProtocol.getState`: like Syska — a constant `{state:false}` with
an unreachable re-throwing catch. -/
def tasmotaGetState : Except String DeviceState :=
  .ok ⟨false, none⟩

/-- `HavellsProtocol.getState`: reads `/api/info`;
`state: response.data.state === 'on'`,
`value: response.data.brightness || response.data.speed`;
any failure yields `{state:false}`. -/
def havellsGetState (read : Except String (Option StateResp)) : Except String DeviceState :=
  match read with
  | .ok (some r) => .ok ⟨r.state == some "on", jsOrN r.brightness r.speed⟩
  | .ok none => .ok ⟨false, none⟩
  | .error _ => .ok ⟨false, none⟩

/-- `WiproProtocol.getState`: reads `/system/info`;
`state: response.data.power === 'on'`, `value: response.data.brightness`;
any failure yields `{state:false}`. -/
def wiproGetState (read : Except String (Option StateResp)) : Except String DeviceState :=
  match read with
  | .ok (some r) => .ok ⟨r.power == some "on", r.brightness⟩
  | .ok none => .ok ⟨false, none⟩
  | .error _ => .ok ⟨false, none⟩

/-- `OrientProtocol.getState`: reads `/api/device`; the value is the speed
for fans and the temperature for ACs; any failure yields `{state:false}`. -/
def orientGetState (read : Except String (Option StateResp)) : Except String DeviceState :=
  match read with
  | .ok (some r) =>
      if r.rtype == some "fan" then .ok ⟨r.power == some "on", r.speed⟩
      else if r.rtype == some "ac" then .ok ⟨r.power == some "on", r.temperature⟩
      else .ok ⟨r.power == some "on", none⟩
  | .ok none => .ok ⟨false, none⟩
  | .error _ => .ok ⟨false, none⟩

/-- `CromptonProtocol.getState`: reads `/device/info`; the value is the
brightness for lights and the speed for fans; any failure yields
`{state:false}`. -/
def cromptonGetState (read : Except String (Option StateResp)) : Except String DeviceState :=
  match read with
  | .ok (some r) =>
      if r.rtype == some "light" then .ok ⟨r.state == some "on", r.brightness⟩
      else if r.rtype == some "fan" then .ok ⟨r.state == some "on", r.speed⟩
      else .ok ⟨r.state == some "on", none⟩
  | .ok none => .ok ⟨false, none⟩
  | .error _ => .ok ⟨false, none⟩

/-- `BajajProtocol.getState`: reads `/api/device/info`;
`state: response.data.status === 'on'`, value is the speed for fans;
any failure yields `{state:false}`. -/
def bajajGetState (read : Except String (Option StateResp)) : Except String DeviceState :=
  match read with
  | .ok (some r) =>
      if r.rtype == some "fan" then .ok ⟨r.status == some "on", r.speed⟩
      else .ok ⟨r.status == some "on", none⟩
  | .ok none => .ok ⟨false, none⟩
  | .error _ => .ok ⟨false, none⟩

/-- `getState` of the handler `getProtocolHandler` constructs for each
kind, applied to the outcome of the underlying HTTP read.  Only the five
handlers that actually issue a request consume it; the mock handlers
perform no read at all.  The Hue handler is built with no constructor
arguments, so its bridge username is the empty string. -/
def getStateOf (k : ProtocolKind) (read : Except String (Option StateResp)) :
    Except String DeviceState :=
  match k with
  | .wiz => wizGetState
  | .hue => hueGetState ""
  | .syska => syskaGetState
  | .tuya => tuyaGetState
  | .tasmota => tasmotaGetState
  | .shelly => shellyGetState
  | .havells => havellsGetState read
  | .wipro => wiproGetState read
  | .orient => orientGetState read
  | .crompton => cromptonGetState read
  | .bajaj => bajajGetState read

/-! ## Fallback discovery (localDeviceService.ts) -/

/-- `detectDeviceType(modelName)` (localDeviceService.ts lines 670-683):
keyword matching on the lowercased model name, defaulting to `'light'`. -/
def detectDeviceType (modelName : String) : String :=
  let m := strToLower modelName
  if jsIncludes m "light" || jsIncludes m "bulb" || jsIncludes m "led" then "light"
  else if jsIncludes m "fan" then "fan"
  else if jsIncludes m "ac" || jsIncludes m "air" then "ac"
  else if jsIncludes m "tv" || jsIncludes m "television" then "tv"
  else "light"

/-- The JSON body a vendor-signature probe endpoint may return (fields the
`detect*Device` functions inspect); truthiness of the `result` / `config` /
`Status` objects is carried as a boolean. -/
structure VendorResp where
  hasResult : Bool := false
  hasConfig : Bool := false
  hasStatus : Bool := false
  model : Option String := none
  name : Option String := none
  deviceName : Option String := none
  manufacturer : Option String := none
  productName : Option String := none
  productId : Option String := none
  uuid : Option String := none
  rtype : Option String := none
  deriving Repr, DecidableEq

/-- The per-address outcome of each vendor probe's HTTP request (`none`
models a timeout / connection failure, which every probe swallows). -/
structure ProbeEnv where
  wiz : Option VendorResp := none
  hue : Option VendorResp := none
  syska : Option VendorResp := none
  tasmota : Option VendorResp := none
  tuya : Option VendorResp := none
  havells : Option VendorResp := none
  wipro : Option VendorResp := none
  orient : Option VendorResp := none
  crompton : Option VendorResp := none
  bajaj : Option VendorResp := none
  deriving Repr, DecidableEq

/-- `detectWizDevice`: `GET /api/getSystemConfig`, matches when
`response.data.result` is truthy. -/
def detectWizDevice (resp : Option VendorResp) (ip : String) : Option LocalDevice :=
  match resp with
  | some r =>
      if r.hasResult then
        some { id := "wiz-" ++ ipToId ip, name := "WiZ Light " ++ ip, type := "light",
               ip := ip, state := false, protocol := some "philips-wiz", value := some 100 }
      else none
  | none => none

/-- `detectHueDevice`: `GET /api/v1/status`, matches when
`response.data.config` is truthy. -/
def detectHueDevice (resp : Option VendorResp) (ip : String) : Option LocalDevice :=
  match resp with
  | some r =>
      if r.hasConfig then
        some { id := "hue-" ++ ipToId ip, name := "Hue Light " ++ ip, type := "light",
               ip := ip, state := false, protocol := some "philips-hue", value := some 80 }
      else none
  | none => none

/-- `detectSyskaDevice`: `GET /info`, matches when the model string contains
`'Syska'`. -/
def detectSyskaDevice (resp : Option VendorResp) (ip : String) : Option LocalDevice :=
  match resp with
  | some r =>
      match r.model with
      | some m =>
          if jsIncludes m "Syska" then
            let t := detectDeviceType m
            some { id := "syska-" ++ ipToId ip,
                   name := "Syska " ++ capFirst t ++ " " ++ ip, type := t,
                   ip := ip, state := false, protocol := some "syska",
                   value := if t == "light" then some 90 else none,
                   temperature := if t == "ac" then some 24 else none }
          else none
      | none => none
  | none => none

/-- `detectTasmotaDevice`: `GET /cm?cmnd=Status%200`, matches when
`response.data.Status` is truthy. -/
def detectTasmotaDevice (resp : Option VendorResp) (ip : String) : Option LocalDevice :=
  match resp with
  | some r =>
      if r.hasStatus then
        let t := detectDeviceType (jsOrS r.deviceName "")
        some { id := "tasmota-" ++ ipToId ip,
               name := jsOrS r.deviceName ("Tasmota Device " ++ ip), type := t,
               ip := ip, state := false, protocol := some "tasmota",
               value := if t == "fan" then some 3 else none }
      else none
  | none => none

/-- `detectTuyaDevice`: `GET /device`, matches when `product_id` or `uuid`
is truthy. -/
def detectTuyaDevice (resp : Option VendorResp) (ip : String) : Option LocalDevice :=
  match resp with
  | some r =>
      if jsTruthyS r.productId || jsTruthyS r.uuid then
        let t := detectDeviceType (jsOrS r.productName "")
        some { id := "tuya-" ++ ipToId ip,
               name := jsOrS r.productName ("Tuya Device " ++ ip), type := t,
               ip := ip, state := false, protocol := some "tuya" }
      else none
  | none => none

/-- Shared shape of the manufacturer / model-substring match condition of
the Indian-brand probes. -/
def brandMatches (r : VendorResp) (brand : String) : Bool :=
  r.manufacturer == some brand ||
    (match r.model with
     | some m => jsIncludes m brand
     | none => false)

/-- `detectHavellsDevice`: `GET /api/info`. -/
def detectHavellsDevice (resp : Option VendorResp) (ip : String) : Option LocalDevice :=
  match resp with
  | some r =>
      if brandMatches r "Havells" then
        let t := detectDeviceType (jsOrS r.model "")
        some { id := "havells-" ++ ipToId ip,
               name := jsOrS r.name ("Havells " ++ capFirst t ++ " " ++ ip), type := t,
               ip := ip, state := false, protocol := some "havells",
               value := if t == "fan" then some 3 else if t == "light" then some 80 else none }
      else none
  | none => none

/-- `detectWiproDevice`: `GET /system/info`. -/
def detectWiproDevice (resp : Option VendorResp) (ip : String) : Option LocalDevice :=
  match resp with
  | some r =>
      if brandMatches r "Wipro" then
        let t := detectDeviceType (jsOrS r.model "")
        some { id := "wipro-" ++ ipToId ip,
               name := jsOrS r.name ("Wipro " ++ capFirst t ++ " " ++ ip), type := t,
               ip := ip, state := false, protocol := some "wipro",
               value := if t == "light" then some 85 else none }
      else none
  | none => none

/-- The type heuristic of `detectOrientDevice` (fan unless the lowercased
model mentions `'ac'`; fans are also the default). -/
def orientType (model : Option String) : String :=
  match model with
  | some m =>
      if jsIncludes (strToLower m) "fan" then "fan"
      else if jsIncludes (strToLower m) "ac" then "ac"
      else "fan"
  | none => "fan"

/-- `detectOrientDevice`: `GET /api/device`. -/
def detectOrientDevice (resp : Option VendorResp) (ip : String) : Option LocalDevice :=
  match resp with
  | some r =>
      if brandMatches r "Orient" then
        let t := orientType r.model
        some { id := "orient-" ++ ipToId ip,
               name := jsOrS r.name ("Orient " ++ capFirst t ++ " " ++ ip), type := t,
               ip := ip, state := false, protocol := some "orient",
               value := if t == "fan" then some 3 else none,
               temperature := if t == "ac" then some 24 else none }
      else none
  | none => none

/-- `detectCromptonDevice`: `GET /device/info`;
`type = response.data.type || detectDeviceType(response.data.model || '')`. -/
def detectCromptonDevice (resp : Option VendorResp) (ip : String) : Option LocalDevice :=
  match resp with
  | some r =>
      if brandMatches r "Crompton" then
        let t := jsOrS r.rtype (detectDeviceType (jsOrS r.model ""))
        some { id := "crompton-" ++ ipToId ip,
               name := jsOrS r.name ("Crompton " ++ capFirst t ++ " " ++ ip), type := t,
               ip := ip, state := false, protocol := some "crompton",
               value := if t == "fan" then some 3 else if t == "light" then some 80 else none }
      else none
  | none => none

/-- `detectBajajDevice`: `GET /api/device/info`. -/
def detectBajajDevice (resp : Option VendorResp) (ip : String) : Option LocalDevice :=
  match resp with
  | some r =>
      if brandMatches r "Bajaj" then
        let t := jsOrS r.rtype (detectDeviceType (jsOrS r.model ""))
        some { id := "bajaj-" ++ ipToId ip,
               name := jsOrS r.name ("Bajaj " ++ capFirst t ++ " " ++ ip), type := t,
               ip := ip, state := false, protocol := some "bajaj",
               value := if t == "fan" then some 3 else none }
      else none
  | none => none

/-- `scanIpFallback(ipAddress)` (lines 91-139): tries each vendor probe in
the source's order and returns the first match; `null` when none matches.
All probe errors are swallowed inside the individual probes. -/
def scanIpFallback (env : ProbeEnv) (ip : String) : Option LocalDevice :=
  match detectWizDevice env.wiz ip with
  | some d => some d
  | none =>
  match detectHueDevice env.hue ip with
  | some d => some d
  | none =>
  match detectSyskaDevice env.syska ip with
  | some d => some d
  | none =>
  match detectTasmotaDevice env.tasmota ip with
  | some d => some d
  | none =>
  match detectTuyaDevice env.tuya ip with
  | some d => some d
  | none =>
  match detectHavellsDevice env.havells ip with
  | some d => some d
  | none =>
  match detectWiproDevice env.wipro ip with
  | some d => some d
  | none =>
  match detectOrientDevice env.orient ip with
  | some d => some d
  | none =>
  match detectCromptonDevice env.crompton ip with
  | some d => some d
  | none =>
  match detectBajajDevice env.bajaj ip with
  | some d => some d
  | none => none

/-- The probes of `scanIpFallback` in their source order. -/
def probeList (env : ProbeEnv) (ip : String) : List (Option LocalDevice) :=
  [detectWizDevice env.wiz ip, detectHueDevice env.hue ip,
   detectSyskaDevice env.syska ip, detectTasmotaDevice env.tasmota ip,
   detectTuyaDevice env.tuya ip, detectHavellsDevice env.havells ip,
   detectWiproDevice env.wipro ip, detectOrientDevice env.orient ip,
   detectCromptonDevice env.crompton ip, detectBajajDevice env.bajaj ip]

/-- First hit of a sequence of probe outcomes. -/
def firstSome {α : Type} : List (Option α) → Option α
  | [] => none
  | some a :: _ => some a
  | none :: rest => firstSome rest

/-- One range of `scanLocalNetworkFallback`: parse the dotted quads and
enumerate the last octet from the start's to the end's value. -/
def rangeAddresses (startIp endIp : String) : List String :=
  let sParts := (splitDots startIp).map (fun p => (parseIntBase10 p).getD 0)
  let eParts := (splitDots endIp).map (fun p => (parseIntBase10 p).getD 0)
  let a := sParts.getD 0 0
  let b := sParts.getD 1 0
  let c := sParts.getD 2 0
  let lo := sParts.getD 3 0
  let hi := eParts.getD 3 0
  (List.range' lo (hi + 1 - lo)).map (fun i => s!"{a}.{b}.{c}.{i}")

/-- `scanLocalNetworkFallback()` (lines 59-88): the fixed candidate-address
list built from the three hard-coded ranges (no actual network input). -/
def scanLocalNetworkFallback : List String :=
  [("192.168.1.1", "192.168.1.50"),
   ("192.168.0.1", "192.168.0.50"),
   ("10.0.0.1", "10.0.0.50")].foldl (fun acc r => acc ++ rangeAddresses r.1 r.2) []

/-- `discoverWithMdnsFallback()` (lines 142-176): always resolves to the two
hard-coded mock devices. -/
def discoverWithMdnsFallback : List LocalDevice :=
  [{ id := "philips-hue-bridge", name := "Philips Hue Bridge", type := "bridge",
     ip := "192.168.1.10", state := true, protocol := some "philips-hue" },
   { id := "philips-wiz-light", name := "Philips WiZ Light", type := "light",
     ip := "192.168.1.15", state := false, protocol := some "philips-wiz",
     value := some 80 }]

/-- The duplicate filter of `discoverDevices` (lines 238-240):
`devices.filter((device, index, self) => index === self.findIndex(d => d.ip === device.ip))`,
i.e. an element survives exactly when no earlier element has its ip
(`seen` accumulates the ips of all elements already visited). -/
def uniqueByIp (devices : List LocalDevice) : List LocalDevice :=
  go [] devices
where
  go (seen : List String) : List LocalDevice → List LocalDevice
    | [] => []
    | d :: ds => if seen.contains d.ip then go seen ds else d :: go (d.ip :: seen) ds

/-- The cached/new merge of `discoverDevices` (lines 246-257): start from the
cached list; each new device replaces the first entry with its id, or is
appended when the id is absent. -/
def mergeById (cached newDevices : List LocalDevice) : List LocalDevice :=
  newDevices.foldl
    (fun acc n =>
      match acc.findIdx? (fun d => d.id == n.id) with
      | some i => acc.set i n
      | none => acc ++ [n])
    cached

/-- The environment of one `discoverDevices()` run: the clock, the net
outcome of the (retried) backend `GET /scan-network`, and the vendor-probe
responses of every address. -/
structure DiscoveryEnv where
  now : Int
  backend : Except String (List LocalDevice)
  http : String → ProbeEnv

/-- The body of `discoverDevices` from the backend attempt on (lines
194-263).  The mDNS step cannot fail (it is a mock) and both fallback
scanners swallow their errors, so no exception can escape this part. -/
def discoverDevicesScan (env : DiscoveryEnv) (s : CacheState) :
    List LocalDevice × CacheState :=
  match env.backend with
  | .ok data => (data, DeviceCache.cacheDevices s data env.now)
  | .error _ =>
      let cachedDevices := DeviceCache.getAllDevices s env.now
      let s1 := DeviceCache.evictExpired s env.now
      let mdnsDevices := discoverWithMdnsFallback
      let results := scanLocalNetworkFallback.map (fun ip => scanIpFallback (env.http ip) ip)
      let devices := mdnsDevices ++ results.filterMap id
      let uniqueDevices := uniqueByIp devices
      let s2 := DeviceCache.cacheDevices s1 uniqueDevices env.now
      if cachedDevices.length > 0 then (mergeById cachedDevices uniqueDevices, s2)
      else (uniqueDevices, s2)

/-- `discoverDevices()` (lines 179-276): serve a recent non-empty cache,
otherwise scan.  Every reachable error is handled internally (the final
`throw` of the outer catch is only reachable if the fallback path itself
threw, which it cannot), so the result is a plain device list. -/
def discoverDevices (env : DiscoveryEnv) (s : CacheState) :
    List LocalDevice × CacheState :=
  if DeviceCache.hasRecentScan s env.now (5 * 60 * 1000) then
    let cachedDevices := DeviceCache.getAllDevices s env.now
    let s1 := DeviceCache.evictExpired s env.now
    if cachedDevices.length > 0 then (cachedDevices, s1)
    else discoverDevicesScan env s1
  else discoverDevicesScan env s

/-! ## Retry policy and control actions (localDeviceService.ts) -/

/-- `MAX_RETRIES = 3` (line 10). -/
def MAX_RETRIES : Nat := 3

/-- `RETRY_DELAY = 1000` ms (line 11). -/
def RETRY_DELAY : Int := 1000

/-- The observable outcome of `retryOperation`: the final result, how many
times the operation was invoked, and the total time slept between
attempts. -/
structure RetryOutcome (α : Type) where
  result : Except String α
  attempts : Nat
  totalDelay : Int
  deriving Repr

/-- `retryOperation(operation, retries, delay, errorMessage)` (lines 14-32):
run the operation (attempt number `k`); on failure, when `retries` is
exhausted throw `errorMessage: <error>`, otherwise sleep `delay` and recurse
with `retries - 1`. -/
def retryOperation {α : Type} (op : Nat → Except String α) (delay : Int)
    (errorMessage : String) : Nat → Nat → RetryOutcome α
  | 0, k =>
      match op k with
      | .ok a => ⟨.ok a, 1, 0⟩
      | .error e => ⟨.error (errorMessage ++ ": " ++ e), 1, 0⟩
  | retries + 1, k =>
      match op k with
      | .ok a => ⟨.ok a, 1, 0⟩
      | .error _ =>
          let rest := retryOperation op delay errorMessage retries (k + 1)
          ⟨rest.result, rest.attempts + 1, rest.totalDelay + delay⟩

/-- The environment of one `toggleDevice` run: per-attempt outcomes of the
backend `POST /device/control` (`response.data.success`) and of the direct
`protocolHandler.setState` fallback. -/
structure ControlEnv where
  backend : Nat → Except String Bool
  direct : Nat → Except String Bool

/-- `toggleDevice(device, newState)` (lines 279-337): no protocol means
failure; otherwise retry the backend, then retry direct control; a success
patches the cache with `{state: newState}`; the outer catch converts any
remaining exception into `false`. -/
def toggleDevice (device : LocalDevice) (newState : Bool) (env : ControlEnv)
    (s : CacheState) (now : Int) : Bool × CacheState :=
  match device.protocol with
  | none => (false, s)
  | some _ =>
      match (retryOperation env.backend RETRY_DELAY
               ("Failed to toggle device " ++ device.name) MAX_RETRIES 0).result with
      | .ok success =>
          if success then
            (true, (DeviceCache.updateDeviceState s device.id { state := some newState } now).2)
          else (false, s)
      | .error _ =>
          match (retryOperation env.direct RETRY_DELAY
                   ("Failed to directly control device " ++ device.name) MAX_RETRIES 0).result with
          | .ok success =>
              if success then
                (true, (DeviceCache.updateDeviceState s device.id { state := some newState } now).2)
              else (false, s)
          | .error _ => (false, s)

/-- The environment of one service-level `updateDeviceState` run: backend
outcomes and, per property name, per-attempt outcomes of
`protocolHandler.setProperty`. -/
structure PropControlEnv where
  backend : Nat → Except String Bool
  prop : String → Nat → Except String Bool

/-- The numeric `params` record of `updateDeviceState`, as a cache patch. -/
def paramsToPatch (params : List (String × Nat)) : DevicePatch :=
  params.foldl
    (fun acc p =>
      if p.1 == "value" then { acc with value := some (some p.2) }
      else if p.1 == "brightness" then { acc with brightness := some (some p.2) }
      else if p.1 == "temperature" then { acc with temperature := some (some p.2) }
      else acc)
    {}

/-- The direct-control property loop of `updateDeviceState` (lines 392-406):
each property is retried independently; one failed property makes the whole
action report failure but the loop continues; an exhausted retry throws out
of the loop. -/
def updateProps (env : PropControlEnv) (deviceName : String)
    (params : List (String × Nat)) : Except String Bool :=
  params.foldlM
    (fun success p =>
      ((retryOperation (env.prop p.1) RETRY_DELAY
          ("Failed to directly update device " ++ deviceName ++ " property " ++ p.1)
          MAX_RETRIES 0).result).map
        (fun propertySuccess => success && propertySuccess))
    true

/-- Service-level `updateDeviceState(device, params)` (lines 340-419): like
`toggleDevice` but patching several properties; the outer catch converts any
remaining exception into `false`. -/
def updateDeviceStateService (device : LocalDevice) (params : List (String × Nat))
    (env : PropControlEnv) (s : CacheState) (now : Int) : Bool × CacheState :=
  match device.protocol with
  | none => (false, s)
  | some _ =>
      match (retryOperation env.backend RETRY_DELAY
               ("Failed to update device " ++ device.name) MAX_RETRIES 0).result with
      | .ok success =>
          if success then
            (true, (DeviceCache.updateDeviceState s device.id (paramsToPatch params) now).2)
          else (false, s)
      | .error _ =>
          match updateProps env device.name params with
          | .ok success =>
              if success then
                (true, (DeviceCache.updateDeviceState s device.id (paramsToPatch params) now).2)
              else (false, s)
          | .error _ => (false, s)

/-! ## Concrete test fixtures -/

/-- A fresh, empty cache. -/
def cacheEmpty : CacheState := {}

/-- Total-failure environment: the backend scan fails and no address answers
any vendor probe. -/
def env0 : DiscoveryEnv :=
  { now := 100000000, backend := .error "backend down", http := fun _ => {} }

/-- Backend down, but the WiZ probe matches at `192.168.1.15` — the address
of the passively discovered mock WiZ light. -/
def env2 : DiscoveryEnv :=
  { now := 100000000, backend := .error "backend down",
    http := fun ip =>
      if ip == "192.168.1.15" then { wiz := some { hasResult := true } } else {} }

/-- The device the active WiZ probe builds at `192.168.1.15`. -/
def activeWiz : LocalDevice :=
  { id := "wiz-192-168-1-15", name := "WiZ Light 192.168.1.15", type := "light",
    ip := "192.168.1.15", state := false, protocol := some "philips-wiz",
    value := some 100 }

/-- A probe environment where only the Syska probe matches. -/
def probeEnvSyska : ProbeEnv :=
  { syska := some { model := some "Syska Fan X" } }

/-- The device the Syska probe builds from `probeEnvSyska` at `10.0.0.7`. -/
def syskaFanDev : LocalDevice :=
  { id := "syska-10-0-0-7", name := "Syska Fan 10.0.0.7", type := "fan",
    ip := "10.0.0.7", state := false, protocol := some "syska" }

/-- The passively discovered mock WiZ light (second entry of
`discoverWithMdnsFallback`). -/
def passiveWizMock : LocalDevice :=
  { id := "philips-wiz-light", name := "Philips WiZ Light", type := "light",
    ip := "192.168.1.15", state := false, protocol := some "philips-wiz",
    value := some 80 }

/-- A cached device for the cache-behaviour witnesses. -/
def dev1 : LocalDevice :=
  { id := "d1", name := "Lamp", type := "light", ip := "10.0.0.9", state := false,
    protocol := some "tasmota" }

/-- A cache holding `dev1`, cached at time 0. -/
def cache1 : CacheState :=
  { entries := [("d1", ⟨dev1, 0⟩)], lastScanTimestamp := 0 }

/-- A pair of records with the same address: `wp` discovered passively,
`wa` actively. -/
def wp : LocalDevice :=
  { id := "passive-1-2-3-4", name := "Passive", type := "light", ip := "1.2.3.4",
    state := false, protocol := some "philips-hue" }

/-- The active-scan record conflicting with `wp`. -/
def wa : LocalDevice :=
  { id := "active-1-2-3-4", name := "Active", type := "light", ip := "1.2.3.4",
    state := true, protocol := some "tasmota" }

/-- A patch turning the power state on. -/
def patch1 : DevicePatch := { state := some true }

/-- A control environment where every attempt fails. -/
def ctrlEnvFail : ControlEnv :=
  { backend := fun _ => .error "ECONNREFUSED",
    direct := fun _ => .error "ECONNREFUSED" }

/-- A property-control environment where every attempt fails. -/
def propEnvFail : PropControlEnv :=
  { backend := fun _ => .error "ECONNREFUSED",
    prop := fun _ _ => .error "ECONNREFUSED" }

/-! ## Helper lemmas -/

theorem retryOperation_all_fail {α : Type} (op : Nat → Except String α) (f : Nat → String)
    (h : ∀ n, op n = .error (f n)) (delay : Int) (msg : String) :
    ∀ (r k : Nat),
      retryOperation op delay msg r k =
        ⟨.error (msg ++ ": " ++ f (k + r)), r + 1, (r : Int) * delay⟩ := by
  intro r
  induction r with
  | zero => intro k; simp [retryOperation, h k]
  | succ r ih =>
      intro k
      have hk := h k
      have hkr : k + 1 + r = k + (r + 1) := by omega
      have hdel : (r : Int) * delay + delay = ((r + 1 : Nat) : Int) * delay := by
        push_cast; ring
      simp [retryOperation, hk, ih (k + 1), hkr, hdel]

/-! ## C9 -/

/-- C9: every protocol tag whose lowercased form is not one of the eleven
recognized vendor tags is mapped by `getProtocolHandler` to the default
Tasmota handler — a usable handler, never null and never an exception. -/
theorem getProtocolHandler_unknown_defaults_tasmota (s : String)
    (h : strToLower s ∉ ["philips-wiz", "philips-hue", "syska", "tuya", "tasmota",
      "shelly", "havells", "wipro", "orient", "crompton", "bajaj"]) :
    getProtocolHandler s = ProtocolKind.tasmota := by
  simp only [List.mem_cons, List.not_mem_nil, or_false, not_or] at h
  obtain ⟨h1, h2, h3, h4, h5, h6, h7, h8, h9, h10, h11⟩ := h
  simp [getProtocolHandler, h1, h2, h3, h4, h5, h6, h7, h8, h9, h10, h11]

/-- Witness for C9 at the concrete unknown tag `"zigbee"`. -/
theorem getProtocolHandler_unknown_witness :
    strToLower "zigbee" ∉ ["philips-wiz", "philips-hue", "syska", "tuya", "tasmota",
      "shelly", "havells", "wipro", "orient", "crompton", "bajaj"] ∧
    getProtocolHandler "zigbee" = ProtocolKind.tasmota :=
  ⟨by decide, getProtocolHandler_unknown_defaults_tasmota "zigbee" (by decide)⟩

/-! ## C4 -/

/-- C4 counterexample: the fallback scanner's candidate list has 150
addresses, exceeding the documented cap of 100. -/
theorem scanLocalNetworkFallback_exceeds_cap :
    ¬ (scanLocalNetworkFallback.length ≤ 100) := by decide

/-- C4 amended: the fallback candidate list is a fixed 150-address constant
(the first 50 host addresses of three common private ranges); it is built
with no knowledge of the local host's address and in particular contains
addresses like `192.168.1.1` that could be the local host's own. -/
theorem scanLocalNetworkFallback_length_150 :
    scanLocalNetworkFallback.length = 150 ∧
    "192.168.1.1" ∈ scanLocalNetworkFallback := by decide

/-! ## C3 -/

/-- C3: for every protocol tag, the handler `getProtocolHandler` returns
has a `getState` that never raises to the caller: the five handlers that
perform a real HTTP read (Havells, Wipro, Orient, Crompton, Bajaj) convert
any read failure into the default off state `{state := false}`, and the
mock handlers (WiZ, Hue, Syska, Tuya, Tasmota, Shelly) cannot fail at all —
their try blocks do no read, so on a failed "underlying read" they still
resolve to their constant result, each with `state := false`. -/
theorem getState_never_raises_default_off (e : String) :
    (∀ tag : String, ∀ read : Except String (Option StateResp),
        (getStateOf (getProtocolHandler tag) read).isOk = true) ∧
    (∀ (k : ProtocolKind) (read : Except String (Option StateResp)),
        (getStateOf k read).isOk = true) ∧
    getStateOf ProtocolKind.wiz (.error e) = .ok ⟨false, some 100⟩ ∧
    getStateOf ProtocolKind.hue (.error e) = .ok ⟨false, none⟩ ∧
    getStateOf ProtocolKind.syska (.error e) = .ok ⟨false, none⟩ ∧
    getStateOf ProtocolKind.tuya (.error e) = .ok ⟨false, none⟩ ∧
    getStateOf ProtocolKind.tasmota (.error e) = .ok ⟨false, none⟩ ∧
    getStateOf ProtocolKind.shelly (.error e) = .ok ⟨false, none⟩ ∧
    getStateOf ProtocolKind.havells (.error e) = .ok ⟨false, none⟩ ∧
    getStateOf ProtocolKind.wipro (.error e) = .ok ⟨false, none⟩ ∧
    getStateOf ProtocolKind.orient (.error e) = .ok ⟨false, none⟩ ∧
    getStateOf ProtocolKind.crompton (.error e) = .ok ⟨false, none⟩ ∧
    getStateOf ProtocolKind.bajaj (.error e) = .ok ⟨false, none⟩ := by
  have hk : ∀ (k : ProtocolKind) (read : Except String (Option StateResp)),
      (getStateOf k read).isOk = true := by
    intro k read
    cases k with
    | wiz => rfl
    | hue => rfl
    | syska => rfl
    | tuya => rfl
    | tasmota => rfl
    | shelly => rfl
    | havells => rcases read with e' | (_ | r) <;> rfl
    | wipro => rcases read with e' | (_ | r) <;> rfl
    | orient =>
        rcases read with e' | (_ | r)
        · rfl
        · rfl
        · simp only [getStateOf, orientGetState]
          split_ifs <;> rfl
    | crompton =>
        rcases read with e' | (_ | r)
        · rfl
        · rfl
        · simp only [getStateOf, cromptonGetState]
          split_ifs <;> rfl
    | bajaj =>
        rcases read with e' | (_ | r)
        · rfl
        · rfl
        · simp only [getStateOf, bajajGetState]
          split_ifs <;> rfl
  exact ⟨fun tag read => hk (getProtocolHandler tag) read, hk,
    rfl, rfl, rfl, rfl, rfl, rfl, rfl, rfl, rfl, rfl, rfl⟩

/-! ## C8 -/

/-- C8: when every attempt of a control action fails, both `toggleDevice`
and the service-level `updateDeviceState` stop after the initial attempt
plus `MAX_RETRIES = 3` retries (4 invocations in total, with a fixed
`RETRY_DELAY` pause before each retry) and resolve to `false` instead of
retrying forever or raising. -/
theorem control_actions_bounded_retry
    (device : LocalDevice) (newState : Bool) (env : ControlEnv) (envP : PropControlEnv)
    (s : CacheState) (now : Int) (pr : String)
    (fb fd fpb fp : Nat → String) (p0 : String × Nat) (rest : List (String × Nat))
    (hpr : device.protocol = some pr)
    (hb : ∀ n, env.backend n = .error (fb n))
    (hd : ∀ n, env.direct n = .error (fd n))
    (hpb : ∀ n, envP.backend n = .error (fpb n))
    (hp : ∀ q n, envP.prop q n = .error (fp n)) :
    toggleDevice device newState env s now = (false, s) ∧
    (retryOperation env.direct RETRY_DELAY
        ("Failed to directly control device " ++ device.name) MAX_RETRIES 0).attempts =
      MAX_RETRIES + 1 ∧
    (retryOperation env.direct RETRY_DELAY
        ("Failed to directly control device " ++ device.name) MAX_RETRIES 0).totalDelay =
      (MAX_RETRIES : Int) * RETRY_DELAY ∧
    updateDeviceStateService device (p0 :: rest) envP s now = (false, s) := by
  have hB := retryOperation_all_fail env.backend fb hb RETRY_DELAY
    ("Failed to toggle device " ++ device.name) MAX_RETRIES 0
  have hD := retryOperation_all_fail env.direct fd hd RETRY_DELAY
    ("Failed to directly control device " ++ device.name) MAX_RETRIES 0
  have hPB := retryOperation_all_fail envP.backend fpb hpb RETRY_DELAY
    ("Failed to update device " ++ device.name) MAX_RETRIES 0
  have hP0 := retryOperation_all_fail (envP.prop p0.1) fp (hp p0.1) RETRY_DELAY
    ("Failed to directly update device " ++ device.name ++ " property " ++ p0.1)
    MAX_RETRIES 0
  refine ⟨?_, ?_, ?_, ?_⟩
  · simp [toggleDevice, hpr, hB, hD]
  · rw [hD]
  · rw [hD]
  · simp [updateDeviceStateService, hpr, hPB, updateProps, hP0, Except.map,
      List.foldlM_cons, Bind.bind, Except.bind]

/-- Witness for C8: a Tasmota light whose every control attempt fails. -/
theorem control_actions_bounded_retry_witness :
    toggleDevice dev1 true ctrlEnvFail cacheEmpty 0 = (false, cacheEmpty) ∧
    (retryOperation ctrlEnvFail.direct RETRY_DELAY
        ("Failed to directly control device " ++ dev1.name) MAX_RETRIES 0).attempts =
      MAX_RETRIES + 1 ∧
    (retryOperation ctrlEnvFail.direct RETRY_DELAY
        ("Failed to directly control device " ++ dev1.name) MAX_RETRIES 0).totalDelay =
      (MAX_RETRIES : Int) * RETRY_DELAY ∧
    updateDeviceStateService dev1 [("value", 50)] propEnvFail cacheEmpty 0 =
      (false, cacheEmpty) :=
  control_actions_bounded_retry dev1 true ctrlEnvFail propEnvFail cacheEmpty 0
    "tasmota" (fun _ => "ECONNREFUSED") (fun _ => "ECONNREFUSED")
    (fun _ => "ECONNREFUSED") (fun _ => "ECONNREFUSED") ("value", 50) []
    rfl (fun _ => rfl) (fun _ => rfl) (fun _ => rfl) (fun _ _ => rfl)

/-! ## C5 -/

theorem firstSome_of_get? {α : Type} :
    ∀ (l : List (Option α)) (i : Nat) (a : α), l.get? i = some (some a) →
      (∀ j, j < i → l.get? j = some none) → firstSome l = some a := by
  intro l
  induction l with
  | nil => intro i a h _; simp at h
  | cons o rest ih =>
      intro i a h hbefore
      cases i with
      | zero =>
          simp at h
          simp [h, firstSome]
      | succ i =>
          have h0 := hbefore 0 (Nat.succ_pos i)
          simp at h0
          simp only [h0, firstSome]
          exact ih i a (by simpa using h)
            (fun j hj => by simpa using hbefore (j + 1) (Nat.succ_lt_succ hj))

theorem firstSome_of_all_none {α : Type} :
    ∀ l : List (Option α), (∀ o ∈ l, o = none) → firstSome l = none := by
  intro l
  induction l with
  | nil => intro _; rfl
  | cons o rest ih =>
      intro h
      have h0 : o = none := h o (List.mem_cons_self o rest)
      subst h0
      simpa [firstSome] using ih (fun o ho => h o (List.mem_cons_of_mem _ ho))

theorem scanIpFallback_eq_firstSome (env : ProbeEnv) (ip : String) :
    scanIpFallback env ip = firstSome (probeList env ip) := by
  simp only [scanIpFallback, probeList]
  cases detectWizDevice env.wiz ip with
  | some d => rfl
  | none =>
  cases detectHueDevice env.hue ip with
  | some d => rfl
  | none =>
  cases detectSyskaDevice env.syska ip with
  | some d => rfl
  | none =>
  cases detectTasmotaDevice env.tasmota ip with
  | some d => rfl
  | none =>
  cases detectTuyaDevice env.tuya ip with
  | some d => rfl
  | none =>
  cases detectHavellsDevice env.havells ip with
  | some d => rfl
  | none =>
  cases detectWiproDevice env.wipro ip with
  | some d => rfl
  | none =>
  cases detectOrientDevice env.orient ip with
  | some d => rfl
  | none =>
  cases detectCromptonDevice env.crompton ip with
  | some d => rfl
  | none =>
  cases detectBajajDevice env.bajaj ip with
  | some d => rfl
  | none => rfl

/-- C5: the vendor probes run in the fixed order WiZ, Hue, Syska, Tasmota,
Tuya, Havells, Wipro, Orient, Crompton, Bajaj (`probeList`); the first probe
that matches produces the device record and every later probe is irrelevant
for that address; when no probe matches the address yields no device; and
the keyword type inference defaults to `"light"` when no keyword applies. -/
theorem scanIpFallback_first_match_wins (env : ProbeEnv) (ip : String) :
    (∀ i d, (probeList env ip).get? i = some (some d) →
        (∀ j, j < i → (probeList env ip).get? j = some none) →
        scanIpFallback env ip = some d) ∧
    ((∀ o ∈ probeList env ip, o = none) → scanIpFallback env ip = none) ∧
    (∀ s : String, jsIncludes (strToLower s) "light" = false →
        jsIncludes (strToLower s) "bulb" = false →
        jsIncludes (strToLower s) "led" = false →
        jsIncludes (strToLower s) "fan" = false →
        jsIncludes (strToLower s) "ac" = false →
        jsIncludes (strToLower s) "air" = false →
        jsIncludes (strToLower s) "tv" = false →
        jsIncludes (strToLower s) "television" = false →
        detectDeviceType s = "light") := by
  refine ⟨?_, ?_, ?_⟩
  · intro i d h hbefore
    rw [scanIpFallback_eq_firstSome]
    exact firstSome_of_get? _ i d h hbefore
  · intro h
    rw [scanIpFallback_eq_firstSome]
    exact firstSome_of_all_none _ h
  · intro s h1 h2 h3 h4 h5 h6 h7 h8
    simp [detectDeviceType, h1, h2, h3, h4, h5, h6, h7, h8]

/-- Witness for C5: with only the Syska probe matching (index 2), the scan
returns the Syska device; with no probe matching it returns nothing; and a
keyword-free model string is typed `"light"`. -/
theorem scanIpFallback_first_match_witness :
    scanIpFallback probeEnvSyska "10.0.0.7" = some syskaFanDev ∧
    scanIpFallback {} "10.0.0.7" = none ∧
    detectDeviceType "zzz" = "light" :=
  ⟨(scanIpFallback_first_match_wins probeEnvSyska "10.0.0.7").1 2 syskaFanDev
      (by decide) (by decide),
   (scanIpFallback_first_match_wins {} "10.0.0.7").2.1 (by decide),
   (scanIpFallback_first_match_wins {} "10.0.0.7").2.2 "zzz"
      (by decide) (by decide) (by decide) (by decide)
      (by decide) (by decide) (by decide) (by decide)⟩

/-! ## Cache lemmas -/

theorem mapGet_of_mem_nodup {m : List (String × CachedDevice)} {k : String}
    {v : CachedDevice} (hN : (m.map Prod.fst).Nodup) (hmem : (k, v) ∈ m) :
    DeviceCache.mapGet m k = some v := by
  induction m with
  | nil => simp at hmem
  | cons q m ih =>
      rcases List.mem_cons.mp hmem with hq | hq
      · subst hq
        unfold DeviceCache.mapGet
        rw [List.find?_cons_of_pos _ (by simp)]
        rfl
      · have hk : q.1 ≠ k := by
          intro hqk
          have hmm : k ∈ m.map Prod.fst := List.mem_map.mpr ⟨(k, v), hq, rfl⟩
          rw [List.map_cons, List.nodup_cons, hqk] at hN
          exact hN.1 hmm
        have hN' : (m.map Prod.fst).Nodup := by
          rw [List.map_cons, List.nodup_cons] at hN
          exact hN.2
        unfold DeviceCache.mapGet
        rw [List.find?_cons_of_neg _ (by simp [hk])]
        exact ih hN' hq

theorem find?_key_mapSet {m : List (String × CachedDevice)} {k : String}
    (v : CachedDevice) (h : m.any (fun p => p.1 == k) = true) :
    List.find? (fun p => p.1 == k)
        (m.map (fun p => if p.1 == k then (k, v) else p)) = some (k, v) := by
  induction m with
  | nil => simp at h
  | cons q m ih =>
      by_cases hq : q.1 = k
      · have hq' : (q.1 == k) = true := beq_iff_eq.mpr hq
        simp only [List.map_cons, hq', if_true]
        exact List.find?_cons_of_pos _ (by simp)
      · have hq' : (q.1 == k) = false := beq_eq_false_iff_ne.mpr hq
        have h' : m.any (fun p => p.1 == k) = true := by
          simpa [List.any_cons, hq'] using h
        simp only [List.map_cons, hq', if_false]
        rw [List.find?_cons_of_neg _ (by simp [hq'])]
        exact ih h'

theorem find?_map_replace_ne {k k' : String} (v : CachedDevice) (hne : k' ≠ k) :
    ∀ m : List (String × CachedDevice),
      List.find? (fun p => p.1 == k') (m.map (fun p => if p.1 == k then (k, v) else p)) =
        List.find? (fun p => p.1 == k') m := by
  have hkk : (k == k') = false := beq_eq_false_iff_ne.mpr (Ne.symm hne)
  intro m
  induction m with
  | nil => rfl
  | cons q m ih =>
      by_cases hq : q.1 = k
      · have hq' : (q.1 == k) = true := beq_iff_eq.mpr hq
        simp only [List.map_cons, hq', if_true]
        rw [List.find?_cons_of_neg _ (by simp [hkk]),
          List.find?_cons_of_neg _ (by simp [hq, hkk])]
        exact ih
      · have hq' : (q.1 == k) = false := beq_eq_false_iff_ne.mpr hq
        simp only [List.map_cons, hq', if_false]
        by_cases hq2 : q.1 = k'
        · rw [List.find?_cons_of_pos _ (by simp [hq2]),
            List.find?_cons_of_pos _ (by simp [hq2])]
          simp [hq']
        · rw [List.find?_cons_of_neg _ (by simp [hq2]),
            List.find?_cons_of_neg _ (by simp [hq2])]
          exact ih

theorem mapGet_mapSet_self {m : List (String × CachedDevice)} {k : String}
    {e : CachedDevice} (v : CachedDevice)
    (h : DeviceCache.mapGet m k = some e) :
    DeviceCache.mapGet (DeviceCache.mapSet m k v) k = some v := by
  obtain ⟨q, hq, -⟩ := Option.map_eq_some'.mp h
  have hpq : (q.1 == k) = true := by
    have := List.find?_some hq
    simpa using this
  have hany : m.any (fun p => p.1 == k) = true :=
    List.any_eq_true.mpr ⟨q, List.mem_of_find?_eq_some hq, hpq⟩
  unfold DeviceCache.mapSet
  rw [if_pos hany]
  unfold DeviceCache.mapGet
  rw [find?_key_mapSet v hany]
  rfl

theorem mapGet_mapSet_ne {m : List (String × CachedDevice)} {k k' : String}
    (v : CachedDevice) (hne : k' ≠ k) :
    DeviceCache.mapGet (DeviceCache.mapSet m k v) k' = DeviceCache.mapGet m k' := by
  have hkk : (k == k') = false := beq_eq_false_iff_ne.mpr (Ne.symm hne)
  by_cases hany : m.any (fun p => p.1 == k) = true
  · unfold DeviceCache.mapSet
    rw [if_pos hany]
    unfold DeviceCache.mapGet
    rw [find?_map_replace_ne v hne m]
  · unfold DeviceCache.mapSet
    rw [if_neg hany]
    unfold DeviceCache.mapGet
    rw [List.find?_append]
    have hnil : List.find? (fun p => p.1 == k') [(k, v)] = none := by
      rw [List.find?_cons_of_neg _ (by simp [hkk])]
      rfl
    rw [hnil]
    simp

theorem mem_mapSet_self {m : List (String × CachedDevice)} {k : String}
    {e : CachedDevice} (v : CachedDevice)
    (h : DeviceCache.mapGet m k = some e) :
    (k, v) ∈ DeviceCache.mapSet m k v := by
  obtain ⟨q, hq, -⟩ := Option.map_eq_some'.mp h
  have hpq : (q.1 == k) = true := by
    have := List.find?_some hq
    simpa using this
  have hany : m.any (fun p => p.1 == k) = true :=
    List.any_eq_true.mpr ⟨q, List.mem_of_find?_eq_some hq, hpq⟩
  unfold DeviceCache.mapSet
  rw [if_pos hany]
  refine List.mem_map.mpr ⟨q, List.mem_of_find?_eq_some hq, ?_⟩
  simp [hpq]

/-! ## C6 -/

/-- C6: after `cacheDevices` at time `T`, `hasRecentScan` with the 5-minute
window is true at `T+4min` and false at `T+6min`; and an entry whose
`cachedAt` lies more than `CACHE_EXPIRY` (1 hour) in the past is excluded
from `getAllDevices` and lazily evicted by the read. -/
theorem cache_freshness_windows (s s' : CacheState) (devs : List LocalDevice)
    (T now : Int) (id : String) (e : CachedDevice)
    (hN : (s'.entries.map Prod.fst).Nodup)
    (hI : ∀ p ∈ s'.entries, p.2.device.id = p.1)
    (hg : DeviceCache.mapGet s'.entries id = some e)
    (hexp : now - e.cachedAt > CACHE_EXPIRY) :
    DeviceCache.hasRecentScan (DeviceCache.cacheDevices s devs T)
      (T + 4 * 60 * 1000) (5 * 60 * 1000) = true ∧
    DeviceCache.hasRecentScan (DeviceCache.cacheDevices s devs T)
      (T + 6 * 60 * 1000) (5 * 60 * 1000) = false ∧
    (∀ d ∈ DeviceCache.getAllDevices s' now, d.id ≠ id) ∧
    DeviceCache.mapGet (DeviceCache.evictExpired s' now).entries id = none := by
  have hlast : (DeviceCache.cacheDevices s devs T).lastScanTimestamp = T := rfl
  refine ⟨?_, ?_, ?_, ?_⟩
  · simp only [DeviceCache.hasRecentScan, hlast, decide_eq_true_eq]
    omega
  · simp only [DeviceCache.hasRecentScan, hlast, decide_eq_false_iff_not]
    omega
  · intro d hd
    simp only [DeviceCache.getAllDevices, List.mem_map, List.mem_filter] at hd
    obtain ⟨p, ⟨hpm, hpe⟩, hpd⟩ := hd
    intro hdid
    have hp1 : p.1 = id := by rw [← hI p hpm, hpd, hdid]
    have hpget : DeviceCache.mapGet s'.entries id = some p.2 := by
      rw [← hp1]
      exact mapGet_of_mem_nodup hN (by simpa using hpm)
    have hpe2 : p.2 = e := by
      have := hpget.symm.trans hg
      simpa using this
    rw [hpe2] at hpe
    simp only [DeviceCache.isExpired, Bool.not_eq_true', decide_eq_false_iff_not] at hpe
    exact hpe hexp
  · unfold DeviceCache.mapGet
    rw [List.find?_eq_none.mpr]
    · rfl
    · intro x hx hbeq
      simp only [DeviceCache.evictExpired, List.mem_filter] at hx
      obtain ⟨hxm, hxe⟩ := hx
      have hx1 : x.1 = id := by simpa using hbeq
      have hxget : DeviceCache.mapGet s'.entries id = some x.2 := by
        rw [← hx1]
        exact mapGet_of_mem_nodup hN (by simpa using hxm)
      have hxe2 : x.2 = e := by
        have := hxget.symm.trans hg
        simpa using this
      rw [hxe2] at hxe
      simp only [DeviceCache.isExpired, Bool.not_eq_true', decide_eq_false_iff_not] at hxe
      exact hxe hexp

/-- Witness for C6 with `dev1` cached at time 0 and the clock at
1 hour + 1 ms. -/
theorem cache_freshness_windows_witness :
    DeviceCache.hasRecentScan (DeviceCache.cacheDevices cacheEmpty [dev1] 0)
      (0 + 4 * 60 * 1000) (5 * 60 * 1000) = true ∧
    DeviceCache.hasRecentScan (DeviceCache.cacheDevices cacheEmpty [dev1] 0)
      (0 + 6 * 60 * 1000) (5 * 60 * 1000) = false ∧
    dev1 ∉ DeviceCache.getAllDevices cache1 3600001 ∧
    DeviceCache.mapGet (DeviceCache.evictExpired cache1 3600001).entries "d1" = none := by
  obtain ⟨h1, h2, h3, h4⟩ :=
    cache_freshness_windows cacheEmpty cache1 [dev1] 0 3600001 "d1" ⟨dev1, 0⟩
      (by decide) (by decide) rfl (by decide)
  exact ⟨h1, h2, fun hmem => h3 dev1 hmem rfl, h4⟩

/-! ## C7 -/

/-- C7: patching a cached id merges exactly the supplied fields into that
entry (other fields and every other device untouched), the result is
reported `true` and visible to `getAllDevices`; patching an absent id
returns `false` and leaves the cache unchanged. -/
theorem updateDeviceState_patch_semantics (s : CacheState) (id : String)
    (p : DevicePatch) (now : Int) (e : CachedDevice)
    (hg : DeviceCache.mapGet s.entries id = some e) :
    (DeviceCache.updateDeviceState s id p now).1 = true ∧
    DeviceCache.mapGet (DeviceCache.updateDeviceState s id p now).2.entries id =
      some ⟨applyPatch e.device p, now⟩ ∧
    (∀ k, k ≠ id →
      DeviceCache.mapGet (DeviceCache.updateDeviceState s id p now).2.entries k =
        DeviceCache.mapGet s.entries k) ∧
    applyPatch e.device p ∈
      DeviceCache.getAllDevices (DeviceCache.updateDeviceState s id p now).2 now ∧
    (∀ b, p.state = some b → (applyPatch e.device p).state = b) ∧
    (p.state = none → (applyPatch e.device p).state = e.device.state) ∧
    (p.name = none → (applyPatch e.device p).name = e.device.name) ∧
    (p.value = none → (applyPatch e.device p).value = e.device.value) ∧
    (∀ q, DeviceCache.mapGet s.entries q = none →
      DeviceCache.updateDeviceState s q p now = (false, s)) := by
  have hstep : DeviceCache.updateDeviceState s id p now =
      (true, { s with entries :=
        DeviceCache.mapSet s.entries id ⟨applyPatch e.device p, now⟩ }) := by
    simp [DeviceCache.updateDeviceState, hg]
  refine ⟨by simp [hstep], ?_, ?_, ?_, ?_, ?_, ?_, ?_, ?_⟩
  · rw [hstep]
    exact mapGet_mapSet_self _ hg
  · intro k hk
    rw [hstep]
    exact mapGet_mapSet_ne _ hk
  · rw [hstep]
    have hmem : (id, (⟨applyPatch e.device p, now⟩ : CachedDevice)) ∈
        DeviceCache.mapSet s.entries id ⟨applyPatch e.device p, now⟩ :=
      mem_mapSet_self _ hg
    simp only [DeviceCache.getAllDevices, List.mem_map]
    refine ⟨(id, ⟨applyPatch e.device p, now⟩), List.mem_filter.mpr ⟨hmem, ?_⟩, rfl⟩
    simp only [DeviceCache.isExpired, CACHE_EXPIRY, Bool.not_eq_true',
      decide_eq_false_iff_not]
    omega
  · intro b hb
    simp [applyPatch, hb]
  · intro hb
    simp [applyPatch, hb]
  · intro hb
    simp [applyPatch, hb]
  · intro hb
    simp [applyPatch, hb]
  · intro q hq
    simp [DeviceCache.updateDeviceState, hq]

/-- Witness for C7: patch `dev1`'s power state in `cache1` at time 5. -/
theorem updateDeviceState_patch_witness :
    (DeviceCache.updateDeviceState cache1 "d1" patch1 5).1 = true ∧
    DeviceCache.mapGet (DeviceCache.updateDeviceState cache1 "d1" patch1 5).2.entries "d1" =
      some ⟨applyPatch dev1 patch1, 5⟩ ∧
    DeviceCache.mapGet (DeviceCache.updateDeviceState cache1 "d1" patch1 5).2.entries "x" =
      DeviceCache.mapGet cache1.entries "x" ∧
    applyPatch dev1 patch1 ∈
      DeviceCache.getAllDevices (DeviceCache.updateDeviceState cache1 "d1" patch1 5).2 5 ∧
    (applyPatch dev1 patch1).state = true ∧
    (applyPatch dev1 patch1).name = dev1.name ∧
    (applyPatch dev1 patch1).value = dev1.value ∧
    DeviceCache.updateDeviceState cache1 "missing" patch1 5 = (false, cache1) := by
  obtain ⟨h1, h2, h3, h4, h5, h6, h7, h8, h9⟩ :=
    updateDeviceState_patch_semantics cache1 "d1" patch1 5 ⟨dev1, 0⟩ rfl
  exact ⟨h1, h2, h3 "x" (by decide), h4, h5 true rfl, h7 rfl, h8 rfl, h9 "missing" rfl⟩

/-! ## C10 -/

/-- C10: a successful cache patch restamps the entry's `cachedAt` to the
patch time, so the patched entry stays visible to `getAllDevices` for a
full retention window counted from the patch. -/
theorem updateDeviceState_restamps_cachedAt (s : CacheState) (id : String)
    (p : DevicePatch) (now later : Int) (e : CachedDevice)
    (hg : DeviceCache.mapGet s.entries id = some e)
    (hwindow : later - now ≤ CACHE_EXPIRY) :
    (DeviceCache.mapGet (DeviceCache.updateDeviceState s id p now).2.entries id).map
      (fun q => q.cachedAt) = some now ∧
    applyPatch e.device p ∈
      DeviceCache.getAllDevices (DeviceCache.updateDeviceState s id p now).2 later := by
  have hstep : DeviceCache.updateDeviceState s id p now =
      (true, { s with entries :=
        DeviceCache.mapSet s.entries id ⟨applyPatch e.device p, now⟩ }) := by
    simp [DeviceCache.updateDeviceState, hg]
  constructor
  · rw [hstep]
    rw [mapGet_mapSet_self _ hg]
    rfl
  · rw [hstep]
    have hmem : (id, (⟨applyPatch e.device p, now⟩ : CachedDevice)) ∈
        DeviceCache.mapSet s.entries id ⟨applyPatch e.device p, now⟩ :=
      mem_mapSet_self _ hg
    simp only [DeviceCache.getAllDevices, List.mem_map]
    refine ⟨(id, ⟨applyPatch e.device p, now⟩), List.mem_filter.mpr ⟨hmem, ?_⟩, rfl⟩
    simp only [DeviceCache.isExpired, CACHE_EXPIRY, Bool.not_eq_true',
      decide_eq_false_iff_not]
    simp only [CACHE_EXPIRY] at hwindow
    omega

/-- Witness for C10: `dev1` was cached at time 0; it is patched at
7200000 (2 h) and still visible at 10800000, a full hour after the patch
and three hours after the original scan. -/
theorem updateDeviceState_restamps_witness :
    (DeviceCache.mapGet
        (DeviceCache.updateDeviceState cache1 "d1" patch1 7200000).2.entries "d1").map
      (fun q => q.cachedAt) = some 7200000 ∧
    applyPatch dev1 patch1 ∈
      DeviceCache.getAllDevices
        (DeviceCache.updateDeviceState cache1 "d1" patch1 7200000).2 10800000 :=
  updateDeviceState_restamps_cachedAt cache1 "d1" patch1 7200000 10800000 ⟨dev1, 0⟩
    rfl (by decide)

/-! ## C2 -/

theorem uniqueByIp_go_filter (x : String) :
    ∀ (l : List LocalDevice) (seen : List String),
      (uniqueByIp.go seen l).filter (fun d => d.ip == x) =
        (if seen.contains x = true then []
         else
           match l.find? (fun d => d.ip == x) with
           | some d₀ => [d₀]
           | none => []) := by
  intro l
  induction l with
  | nil =>
      intro seen
      by_cases hx : seen.contains x = true
      · rw [if_pos hx]; rfl
      · rw [if_neg hx]; rfl
  | cons d ds ih =>
      intro seen
      by_cases hd : seen.contains d.ip = true
      · have hgo : uniqueByIp.go seen (d :: ds) = uniqueByIp.go seen ds := by
          have he : uniqueByIp.go seen (d :: ds) =
              if seen.contains d.ip = true then uniqueByIp.go seen ds
              else d :: uniqueByIp.go (d.ip :: seen) ds := rfl
          rw [he, if_pos hd]
        rw [hgo, ih seen]
        by_cases hx : seen.contains x = true
        · rw [if_pos hx, if_pos hx]
        · rw [if_neg hx, if_neg hx]
          have hdx : d.ip ≠ x := fun hdx => hx (hdx ▸ hd)
          rw [List.find?_cons_of_neg _ (by simp [hdx])]
      · have hgo : uniqueByIp.go seen (d :: ds) =
            d :: uniqueByIp.go (d.ip :: seen) ds := by
          have he : uniqueByIp.go seen (d :: ds) =
              if seen.contains d.ip = true then uniqueByIp.go seen ds
              else d :: uniqueByIp.go (d.ip :: seen) ds := rfl
          rw [he, if_neg hd]
        rw [hgo]
        by_cases hdx : d.ip = x
        · have hb : (d.ip == x) = true := by simp [hdx]
          rw [List.filter_cons, if_pos hb, ih (d.ip :: seen)]
          have hseen : (d.ip :: seen).contains x = true := by
            simp [List.contains_cons, hdx]
          rw [if_pos hseen]
          have hsx : ¬ seen.contains x = true := by
            rw [← hdx]; exact hd
          rw [if_neg hsx]
          rw [List.find?_cons, hb]
        · have hb : ¬ ((d.ip == x) = true) := by simp [hdx]
          rw [List.filter_cons, if_neg hb, ih (d.ip :: seen)]
          have hseen : ((d.ip :: seen).contains x) = (seen.contains x) := by
            simp [List.contains_cons, Ne.symm hdx]
          rw [hseen]
          by_cases hx : seen.contains x = true
          · rw [if_pos hx, if_pos hx]
          · rw [if_neg hx, if_neg hx]
            rw [List.find?_cons_of_neg _ (by simp [hb])]

/-- C2 amended: deduplication keeps, for every address, exactly the FIRST
record with that address in the merged `passive ++ active` list — so on a
conflict between a passively discovered (mDNS) record and an active-scan
record for the same address, the passive record is the one that survives
(the opposite of the claimed preference). -/
theorem uniqueByIp_keeps_first_per_address (passive active : List LocalDevice)
    (x : String) (p : LocalDevice)
    (hfind : passive.find? (fun d => d.ip == x) = some p) :
    (uniqueByIp (passive ++ active)).filter (fun d => d.ip == x) = [p] := by
  unfold uniqueByIp
  rw [uniqueByIp_go_filter x (passive ++ active) []]
  rw [if_neg (by simp)]
  rw [List.find?_append, hfind]
  rfl

/-- Witness for C2's amended statement: one passive and one active record at
`1.2.3.4`; the passive one survives alone. -/
theorem uniqueByIp_keeps_first_witness :
    (uniqueByIp ([wp] ++ [wa])).filter (fun d => d.ip == "1.2.3.4") = [wp] :=
  uniqueByIp_keeps_first_per_address [wp] [wa] "1.2.3.4" wp (by decide)

/-- C2 counterexample: with the backend down and an active WiZ probe match
at `192.168.1.15` — the same address as the passively discovered mock WiZ
light — the merged discovery result keeps the passive record
(`philips-wiz-light`) and drops the active-scan record, contradicting the
claimed active-over-passive preference. -/
theorem discoverDevices_passive_survives_counterexample :
    scanIpFallback (env2.http "192.168.1.15") "192.168.1.15" = some activeWiz ∧
    (discoverDevices env2 cacheEmpty).1.filter (fun d => d.ip == "192.168.1.15") =
      [passiveWizMock] ∧
    activeWiz ∉ (discoverDevices env2 cacheEmpty).1 := by
  refine ⟨by decide, by decide, by decide⟩

/-! ## C1 -/

theorem getAllDevices_evictExpired (s : CacheState) (now : Int) :
    DeviceCache.getAllDevices (DeviceCache.evictExpired s now) now =
      DeviceCache.getAllDevices s now := by
  simp [DeviceCache.getAllDevices, DeviceCache.evictExpired, List.filter_filter]

theorem filterMap_scan_none (env : DiscoveryEnv)
    (hp : ∀ ip, scanIpFallback (env.http ip) ip = none) :
    ∀ l : List String,
      (l.map (fun ip => scanIpFallback (env.http ip) ip)).filterMap id = [] := by
  intro l
  induction l with
  | nil => rfl
  | cons a l ih => simp [hp a, ih]

/-- C1 amended: when the backend scan fails and no per-IP probe matches,
`discoverDevices` does not throw; but instead of the cached-or-empty list
claimed, it returns the two hard-coded mock mDNS devices (the mock mDNS
stage cannot fail), so with an empty cache the result is the mock list,
never the empty list. -/
theorem discoverDevices_total_failure_returns_mdns_mocks
    (env : DiscoveryEnv) (s : CacheState) (e : String)
    (hb : env.backend = .error e)
    (hp : ∀ ip, scanIpFallback (env.http ip) ip = none)
    (hc : DeviceCache.getAllDevices s env.now = []) :
    (discoverDevices env s).1 = discoverWithMdnsFallback ∧
    (discoverDevices env s).1 ≠ [] := by
  have hmne : discoverWithMdnsFallback ≠ [] := by decide
  have hu : uniqueByIp (discoverWithMdnsFallback ++ []) = discoverWithMdnsFallback := by
    decide
  have hscan : ∀ s', DeviceCache.getAllDevices s' env.now = [] →
      (discoverDevicesScan env s').1 = discoverWithMdnsFallback := by
    intro s' hc'
    simp only [discoverDevicesScan, hb, hc', filterMap_scan_none env hp,
      List.length_nil, gt_iff_lt, lt_self_iff_false, if_false, hu]
  have hfirst : (discoverDevices env s).1 = discoverWithMdnsFallback := by
    unfold discoverDevices
    by_cases hrec : DeviceCache.hasRecentScan s env.now (5 * 60 * 1000) = true
    · rw [if_pos hrec]
      simp only [hc, List.length_nil, gt_iff_lt, lt_self_iff_false, if_false]
      exact hscan _ (by rw [getAllDevices_evictExpired, hc])
    · rw [if_neg hrec]
      exact hscan s hc
  exact ⟨hfirst, by rw [hfirst]; exact hmne⟩

/-- C1 counterexample: with the backend down, no probe matching and an empty
cache, `discoverDevices` does not return the empty list the claim requires
(it returns the two hard-coded mock mDNS devices). -/
theorem discoverDevices_total_failure_not_empty :
    DeviceCache.getAllDevices cacheEmpty env0.now = [] ∧
    (discoverDevices env0 cacheEmpty).1 ≠ [] := by
  refine ⟨rfl, by decide⟩

/-- Witness for C1's amended statement at the concrete total-failure
environment `env0`. -/
theorem discoverDevices_total_failure_witness :
    (discoverDevices env0 cacheEmpty).1 = discoverWithMdnsFallback ∧
    (discoverDevices env0 cacheEmpty).1 ≠ [] :=
  discoverDevices_total_failure_returns_mdns_mocks env0 cacheEmpty "backend down"
    rfl (fun _ => rfl) rfl

end SmartIoT
